import Mathlib

/-!
Verification of the command-processing core of `voice_app.py`, a minimal
voice-driven command-response loop.  The source's side effects (microphone
capture, the remote transcription service, text-to-speech playback, the wall
clock and the random number generator) are modelled as explicit inputs:

* `CaptureOutcome` enumerates the outcomes of one `listen_for_command` call
  (successful recognition, each exception class the source catches, and the
  uncaught microphone-open failure, which propagates to the caller);
* `Env` carries the wall-clock reading (`hour`, `minute`) consumed by
  `datetime.datetime.now().strftime("%I:%M %p")` and the random draw
  (`jokeIdx`) consumed by `random.choice`;
* each call to `speak` is recorded as one entry of a `List String` of
  utterances, in order;
* the optional fault injected into `process_command`'s `try` block is an
  explicit `Option String` argument.  In the source every fallible operation
  of a branch (the `in` tests, `strftime`, `random.choice`, building the
  f-string) executes before that branch's single `speak` call, and nothing
  after a `speak` can raise (`speak` swallows its own errors), so a fault, if
  one occurs, occurs before any utterance is produced; the model reflects
  this by letting the fault preempt the whole rule body.
-/

namespace VoiceApp

/-- Python's `needle in haystack` on lists of characters: `listLE n h` decides
whether `n` occurs at the very start of `h`. -/
def listLE : List Char → List Char → Bool
  | [], _ => true
  | _ :: _, [] => false
  | a :: as, b :: bs => a == b && listLE as bs

/-- `listSub n h` decides whether `n` occurs as a contiguous run anywhere in
`h` (Python's substring containment). -/
def listSub : List Char → List Char → Bool
  | n, [] => n.isEmpty
  | n, h :: t => listLE n (h :: t) || listSub n t

/-- Python's `needle in haystack` for strings, as used by every rule test in
`process_command`. -/
def pyIn (needle haystack : String) : Bool :=
  listSub needle.data haystack.data

/-- Python's `str.lower()` applied in `listen_for_command` before returning a
transcript (`return command.lower()`). -/
def pyLower (s : String) : String :=
  String.mk (s.data.map Char.toLower)

/-- The loop-control signal of the design: `process_command` returns the
string `"exit"` to request termination, anything else means continue. -/
inductive Directive where
  | CONTINUE
  | TERMINATE
deriving DecidableEq, Repr

/-- How the main loop reads `process_command`'s return value:
`if exit_signal == "exit": break`. -/
def directiveOf (sig : Option String) : Directive :=
  if sig = some "exit" then Directive.TERMINATE else Directive.CONTINUE

/-- The external state one `process_command` call reads: the wall clock
(`datetime.datetime.now()`) and the random draw behind `random.choice`. -/
structure Env where
  hour : Nat
  minute : Nat
  jokeIdx : Nat
deriving DecidableEq, Repr

/-- Zero-padded two-digit decimal rendering, as `strftime` does for `%I` and
`%M`. -/
def pad2 (n : Nat) : String :=
  if n < 10 then "0" ++ toString n else toString n

/-- The 12-hour-clock hour for `%I`: hours 0 and 12 render as 12, otherwise
the hour modulo 12. -/
def hour12 (h : Nat) : Nat :=
  if h % 12 = 0 then 12 else h % 12

/-- `datetime.datetime.now().strftime("%I:%M %p")`, e.g. `"03:30 PM"`, for a
clock reading `h:m` with `h < 24`, `m < 60`. -/
def formatTime12 (h m : Nat) : String :=
  pad2 (hour12 h) ++ ":" ++ pad2 m ++ " " ++ (if h < 12 then "AM" else "PM")

/-- The hard-coded `jokes` list built in the `"tell me a joke"` branch of
`process_command`. -/
def jokesList : List String :=
  ["Why don't scientists trust atoms? Because they make up everything!",
   "Why did the scarecrow win an award? Because he was outstanding in his field!",
   "What do you call fake spaghetti? An impasta!",
   "Why did the bicycle fall over? Because it was two tired!"]

/-- `random.choice(l)`: a uniform draw from `l`, determinised by the draw
value carried in `Env` (`random.choice` never runs on an empty list in the
source because of the `if jokes:` guard). -/
def randomChoice (draw : Nat) (l : List String) : String :=
  l.getD (draw % l.length) ""

/-- The `try` body of `process_command` on a present transcript, with the
`jokes` local generalised to a parameter so that the source's own
`if jokes:` emptiness guard can be stated (`processCommandBody` below fixes
it to the hard-coded `jokesList`).  Result: the utterances passed to `speak`,
in order, and the returned signal (`some "exit"` or `none`). -/
def processCommandBodyWith (jokes : List String) (env : Env) (command : String) :
    List String × Option String :=
  if pyIn "hello" command || pyIn "hi" command || pyIn "hey" command then
    (["Hello there! How can I help you today?"], none)
  else if pyIn "what time is it" command || pyIn "current time" command then
    (["The current time is " ++ formatTime12 env.hour env.minute], none)
  else if pyIn "what is your name" command then
    (["I am a simple voice assistant based on Python."], none)
  else if pyIn "tell me a joke" command then
    (if !jokes.isEmpty then
      ([randomChoice env.jokeIdx jokes], none)
    else
      (["I'm out of jokes right now!"], none))
  else if pyIn "goodbye" command || pyIn "exit" command ||
          pyIn "quit" command || pyIn "stop" command then
    (["Goodbye! Have a great day."], some "exit")
  else
    (["Sorry, I didn't quite catch that. Could you please repeat?"], none)

/-- The `try` body of `process_command` with the source's hard-coded jokes. -/
def processCommandBody (env : Env) (command : String) : List String × Option String :=
  processCommandBodyWith jokesList env command

/-- `process_command(command)`: `None` input returns immediately with no
utterance; otherwise the rule body runs inside `try`, and a fault (modelled
by the explicit `fault` argument) lands in the `except` handler, which speaks
the apology and falls through to `return None`. -/
def processCommand (env : Env) (fault : Option String) (command : Option String) :
    List String × Option String :=
  match command with
  | none => ([], none)
  | some cmd =>
    match fault with
    | some _ => (["Oops, something went wrong while processing your request."], none)
    | none => processCommandBody env cmd

/-- The possible outcomes of one `listen_for_command` call, one constructor
per control path of the source: a microphone-acquisition failure at
`with sr.Microphone() as source:` (which sits outside every `try` of the
function), successful recognition, the listening timeout
(`sr.WaitTimeoutError`), some other capture failure, no speech recognized
(`sr.UnknownValueError`), a transcription-service failure
(`sr.RequestError`), and any other unexpected recognition failure. -/
inductive CaptureOutcome where
  | micOpenFailure (msg : String)
  | recognized (text : String)
  | waitTimeout
  | captureFailure (msg : String)
  | unknownValue
  | requestFailure (msg : String)
  | unexpectedFailure (msg : String)
deriving DecidableEq, Repr

/-- `listen_for_command()`.  A microphone-open failure is not caught inside
the function and propagates to the caller (`Except.error`).  Every other
path returns: first component is the returned transcript (`None` on every
caught failure path, the lowercased recognition on success), second
component is the utterances the adapter itself speaks (only the
`sr.RequestError` handler calls `speak`). -/
def listenForCommand : CaptureOutcome → Except String (Option String × List String)
  | CaptureOutcome.micOpenFailure msg => Except.error msg
  | CaptureOutcome.recognized t => Except.ok (some (pyLower t), [])
  | CaptureOutcome.waitTimeout => Except.ok (none, [])
  | CaptureOutcome.captureFailure _ => Except.ok (none, [])
  | CaptureOutcome.unknownValue => Except.ok (none, [])
  | CaptureOutcome.requestFailure _ =>
      Except.ok
        (none, ["Sorry, I'm having trouble connecting to the speech recognition service."])
  | CaptureOutcome.unexpectedFailure _ => Except.ok (none, [])

/-- One event reaching the `while True` body: either a normal iteration
(parameterised by the capture outcome, the environment read during
interpretation, and an optional interpretation fault), a
`KeyboardInterrupt`, or any other exception escaping capture or
interpretation. -/
inductive LoopEvent where
  | iter (o : CaptureOutcome) (env : Env) (fault : Option String)
  | keyboardInterrupt
  | unexpectedFault (msg : String)

/-- How the `while True` loop ended: via the `"exit"` signal, via the
`KeyboardInterrupt` handler, via the generic `except` handler, or not yet
(the supplied event trace ran out while the loop would keep going). -/
inductive ExitKind where
  | normalExit
  | interruptExit
  | faultExit
  | stillRunning
deriving DecidableEq, Repr

/-- The `while True` loop of `__main__`, driven by a finite event trace:
returns every utterance spoken from the loop body on, in order, and how the
loop ended.  An exception raised out of `listen_for_command` (the
microphone-open failure) lands in the same generic `except` handler as any
other unexpected fault.  Each handler that breaks ignores the rest of the
trace (no retry). -/
def runLoop : List LoopEvent → List String × ExitKind
  | [] => ([], ExitKind.stillRunning)
  | e :: rest =>
    match e with
    | LoopEvent.keyboardInterrupt => (["Shutting down."], ExitKind.interruptExit)
    | LoopEvent.unexpectedFault _ =>
        (["An unexpected error occurred. Please restart me."], ExitKind.faultExit)
    | LoopEvent.iter o env fault =>
      match listenForCommand o with
      | Except.error _ =>
          (["An unexpected error occurred. Please restart me."], ExitKind.faultExit)
      | Except.ok captured =>
        let processed := processCommand env fault captured.1
        if processed.2 = some "exit" then
          (captured.2 ++ processed.1, ExitKind.normalExit)
        else
          let tail := runLoop rest
          (captured.2 ++ processed.1 ++ tail.1, tail.2)

/-- The process exit code: after any `break` the script only prints
`"Program terminated."` and falls off the end, so every post-initialization
termination exits with code 0. -/
def exitCode : ExitKind → Nat
  | _ => 0

/-- Modelled from the spec: the rule table of §4.3, one row per pattern set,
each row carrying its patterns, its response utterances (for the ambient
`Env`) and its returned signal.  Used only to state that the source's
dispatcher is this table evaluated first-match-first. -/
def ruleTable (env : Env) : List (List String × (List String × Option String)) :=
  [ (["hello", "hi", "hey"],
      (["Hello there! How can I help you today?"], none)),
    (["what time is it", "current time"],
      (["The current time is " ++ formatTime12 env.hour env.minute], none)),
    (["what is your name"],
      (["I am a simple voice assistant based on Python."], none)),
    (["tell me a joke"],
      (if !jokesList.isEmpty then
        ([randomChoice env.jokeIdx jokesList], none)
      else
        (["I'm out of jokes right now!"], none))),
    (["goodbye", "exit", "quit", "stop"],
      (["Goodbye! Have a great day."], some "exit")) ]

/-- Modelled from the spec: first-match-wins evaluation of a rule table — a
row fires iff one of its patterns is a substring of the transcript, the
first firing row gives the result, and the final fallback row applies when
no row fires. -/
def firstMatch (cmd : String) :
    List (List String × (List String × Option String)) → List String × Option String
  | [] => (["Sorry, I didn't quite catch that. Could you please repeat?"], none)
  | (pats, res) :: rest =>
    if pats.any (fun p => pyIn p cmd) then res else firstMatch cmd rest

/-- Modelled from the spec: the whole Interpreter table of §4.3 including the
absence row (no response, CONTINUE). -/
def tableInterpret (env : Env) (command : Option String) : List String × Option String :=
  match command with
  | none => ([], none)
  | some cmd => firstMatch cmd (ruleTable env)

/-- Checks the spec's `HH:MM AM|PM` shape: exactly eight characters — two
digits, a colon, two digits, a space, then `AM` or `PM`. -/
def matchesTimeFormat (s : String) : Bool :=
  match s.data with
  | [h1, h2, c, m1, m2, sp, p1, p2] =>
    h1.isDigit && h2.isDigit && c == ':' && m1.isDigit && m2.isDigit &&
    sp == ' ' && (p1 == 'A' || p1 == 'P') && p2 == 'M'
  | _ => false

/-! Helper lemmas. -/

lemma listLE_refl (n : List Char) : listLE n n = true := by
  induction n with
  | nil => rfl
  | cons a as ih => simp [listLE, ih]

lemma listSub_append_self (xs n : List Char) : listSub n (xs ++ n) = true := by
  induction xs with
  | nil =>
    cases n with
    | nil => rfl
    | cons a as => simp [listSub, listLE_refl]
  | cons x xs ih =>
    cases n with
    | nil => simp [listSub, listLE]
    | cons a as => simp [listSub, ih]

lemma pyIn_append_self (s t : String) : pyIn t (s ++ t) = true := by
  simp only [pyIn, String.data_append]
  exact listSub_append_self s.data t.data

lemma formatTime12_matches :
    ∀ h, h < 24 → ∀ m, m < 60 → matchesTimeFormat (formatTime12 h m) = true := by
  decide

/-! The claims. -/

/-- C1: `process_command` evaluates the spec's rule table in exactly the
table's order with first match winning, a rule matching iff one of its
patterns is a substring of the transcript (greeting, then time, then
identity, then joke, then termination, then the fallback), and an absent
transcript produces no response and signal `none` (directive CONTINUE). -/
theorem c1_table_order (env : Env) (command : Option String) :
    processCommand env none command = tableInterpret env command := by
  cases command with
  | none => rfl
  | some cmd =>
    simp only [processCommand, tableInterpret, processCommandBody,
      processCommandBodyWith, ruleTable, firstMatch, List.any_cons,
      List.any_nil, Bool.or_false, Bool.or_assoc]

/-- C2 counterexample: the transcript `"hello goodbye"` contains
`"goodbye"`, yet the Interpreter answers with the greeting and directive
CONTINUE, and produces no farewell — the greeting rule fires first. -/
theorem c2_counterexample :
    pyIn "goodbye" "hello goodbye" = true ∧
    processCommand ⟨0, 0, 0⟩ none (some "hello goodbye") =
      (["Hello there! How can I help you today?"], none) ∧
    directiveOf (processCommand ⟨0, 0, 0⟩ none (some "hello goodbye")).2 =
      Directive.CONTINUE := by
  refine ⟨by decide, by decide, by decide⟩

/-- C2 (amended): for every transcript in which a termination pattern
(`goodbye`/`exit`/`quit`/`stop`) appears as a substring and no pattern of an
earlier rule (greeting, time, identity, joke) appears, the Interpreter
returns signal `"exit"` (directive TERMINATE) and produces the farewell
utterance exactly once, with no other utterance. -/
theorem c2_terminate (env : Env) (cmd : String)
    (hterm : (pyIn "goodbye" cmd || pyIn "exit" cmd ||
              pyIn "quit" cmd || pyIn "stop" cmd) = true)
    (hgreet : (pyIn "hello" cmd || pyIn "hi" cmd || pyIn "hey" cmd) = false)
    (htime : (pyIn "what time is it" cmd || pyIn "current time" cmd) = false)
    (hname : pyIn "what is your name" cmd = false)
    (hjoke : pyIn "tell me a joke" cmd = false) :
    processCommand env none (some cmd) = (["Goodbye! Have a great day."], some "exit") ∧
    directiveOf (processCommand env none (some cmd)).2 = Directive.TERMINATE ∧
    (processCommand env none (some cmd)).1.count "Goodbye! Have a great day." = 1 := by
  have hbody : processCommand env none (some cmd) =
      (["Goodbye! Have a great day."], some "exit") := by
    simp [processCommand, processCommandBody, processCommandBodyWith,
      hterm, hgreet, htime, hname, hjoke]
  refine ⟨hbody, ?_, ?_⟩ <;> rw [hbody] <;> rfl

theorem c2_terminate_witness :
    (pyIn "goodbye" "goodbye" || pyIn "exit" "goodbye" ||
     pyIn "quit" "goodbye" || pyIn "stop" "goodbye") = true ∧
    processCommand ⟨0, 0, 0⟩ none (some "goodbye") =
      (["Goodbye! Have a great day."], some "exit") :=
  ⟨by decide,
   (c2_terminate ⟨0, 0, 0⟩ "goodbye" (by decide) (by decide) (by decide)
     (by decide) (by decide)).1⟩

/-- C3: at the session-loop level, a `KeyboardInterrupt` is caught, the
shutdown utterance is spoken and the loop exits cleanly with exit code 0;
any other fault escaping capture or interpretation is caught, the apologetic
utterance is spoken, and the loop terminates without retrying — in both
cases the remaining event trace `rest` is ignored. -/
theorem c3_loop_failure (rest : List LoopEvent) (msg : String) :
    runLoop (LoopEvent.keyboardInterrupt :: rest) =
      (["Shutting down."], ExitKind.interruptExit) ∧
    exitCode ExitKind.interruptExit = 0 ∧
    runLoop (LoopEvent.unexpectedFault msg :: rest) =
      (["An unexpected error occurred. Please restart me."], ExitKind.faultExit) ∧
    exitCode ExitKind.faultExit = 0 := by
  exact ⟨rfl, rfl, rfl, rfl⟩

/-- C4 counterexample: `listen_for_command` does not map every failure mode
to the absence value — a microphone-acquisition failure at
`with sr.Microphone()` lies outside every `try` of the function and
propagates to the caller, so on that failure the adapter raises instead of
returning `None`. -/
theorem c4_counterexample :
    listenForCommand (CaptureOutcome.micOpenFailure "no default input device") =
      Except.error "no default input device" ∧
    listenForCommand (CaptureOutcome.micOpenFailure "no default input device") ≠
      Except.ok (none, []) := by
  exact ⟨rfl, by simp [listenForCommand]⟩

/-- C4 (amended): on every capture outcome other than a microphone-open
failure, `listen_for_command` returns to its caller without raising; every
such failure mode (listening timeout, audio-capture error, no speech
recognized, transcription-service error, any other unexpected recognition
failure) is mapped to the absence value `None`, a spoken apology is emitted
iff the failure is a transcription-service error (`sr.RequestError`), and on
success the returned transcript is lowercased.  A microphone-open failure
raises to the caller, where only the session loop's generic handler catches
it. -/
theorem c4_capture_adapter (o : CaptureOutcome)
    (hmic : ∀ m, o ≠ CaptureOutcome.micOpenFailure m) :
    ∃ transcript utterances,
      listenForCommand o = Except.ok (transcript, utterances) ∧
      ((∀ t, o ≠ CaptureOutcome.recognized t) → transcript = none) ∧
      (∀ t, o = CaptureOutcome.recognized t →
        transcript = some (pyLower t) ∧ utterances = []) ∧
      (utterances ≠ [] ↔ ∃ m, o = CaptureOutcome.requestFailure m) := by
  cases o with
  | micOpenFailure m => exact absurd rfl (hmic m)
  | recognized t => exact ⟨some (pyLower t), [], rfl, by simp, by simp, by simp⟩
  | waitTimeout => exact ⟨none, [], rfl, by simp, by simp, by simp⟩
  | captureFailure m => exact ⟨none, [], rfl, by simp, by simp, by simp⟩
  | unknownValue => exact ⟨none, [], rfl, by simp, by simp, by simp⟩
  | requestFailure m =>
    exact ⟨none,
      ["Sorry, I'm having trouble connecting to the speech recognition service."],
      rfl, by simp, by simp, by simp⟩
  | unexpectedFailure m => exact ⟨none, [], rfl, by simp, by simp, by simp⟩

theorem c4_capture_adapter_witness :
    listenForCommand (CaptureOutcome.recognized "HELLO There") =
      Except.ok (some (pyLower "HELLO There"), []) := by
  obtain ⟨t, u, heq, -, hrec, -⟩ :=
    c4_capture_adapter (CaptureOutcome.recognized "HELLO There")
      (by intro m h; cases h)
  obtain ⟨ht, hu⟩ := hrec "HELLO There" rfl
  rw [heq, ht, hu]

/-- C5: a fault raised during rule evaluation is caught inside
`process_command` and converted to the apologetic utterance with return
value `none` (directive CONTINUE); `processCommand` is a total function, so
no exception reaches the session loop. -/
theorem c5_fault_contained (env : Env) (msg : String) (cmd : String) :
    processCommand env (some msg) (some cmd) =
      (["Oops, something went wrong while processing your request."], none) ∧
    directiveOf (processCommand env (some msg) (some cmd)).2 = Directive.CONTINUE := by
  exact ⟨rfl, rfl⟩

/-- C6: any transcript that, once lowercased as the capture adapter does,
contains `"hello"`, `"hi"` or `"hey"` as a substring (hence any surrounding
text, case-insensitively) makes the Interpreter yield the greeting response
with directive CONTINUE. -/
theorem c6_greeting (env : Env) (s : String)
    (h : (pyIn "hello" (pyLower s) || pyIn "hi" (pyLower s) ||
          pyIn "hey" (pyLower s)) = true) :
    processCommand env none (some (pyLower s)) =
      (["Hello there! How can I help you today?"], none) ∧
    directiveOf (processCommand env none (some (pyLower s))).2 =
      Directive.CONTINUE := by
  have hbody : processCommand env none (some (pyLower s)) =
      (["Hello there! How can I help you today?"], none) := by
    simp [processCommand, processCommandBody, processCommandBodyWith, h]
  exact ⟨hbody, by rw [hbody]; rfl⟩

theorem c6_greeting_witness :
    (pyIn "hello" (pyLower "Oh HI there") || pyIn "hi" (pyLower "Oh HI there") ||
     pyIn "hey" (pyLower "Oh HI there")) = true ∧
    processCommand ⟨0, 0, 0⟩ none (some (pyLower "Oh HI there")) =
      (["Hello there! How can I help you today?"], none) :=
  ⟨by decide, (c6_greeting ⟨0, 0, 0⟩ "Oh HI there" (by decide)).1⟩

/-- C7: on the transcript `"please tell me a joke"` the Interpreter's
response is the `random.choice` draw, which is always a member of the
hard-coded `jokesList`; and were the `jokes` local empty, the source's own
`if jokes:` guard would produce the fixed "out of jokes" fallback instead
of failing. -/
theorem c7_joke (env : Env) :
    processCommand env none (some "please tell me a joke") =
      ([randomChoice env.jokeIdx jokesList], none) ∧
    randomChoice env.jokeIdx jokesList ∈ jokesList ∧
    processCommandBodyWith [] env "please tell me a joke" =
      (["I'm out of jokes right now!"], none) := by
  refine ⟨rfl, ?_, rfl⟩
  have hlt : env.jokeIdx % jokesList.length < jokesList.length :=
    Nat.mod_lt _ (by decide)
  rw [randomChoice, List.getD_eq_getElem jokesList "" hlt]
  exact List.getElem_mem hlt

/-- C8: on the transcript `"what time is it now"` the Interpreter's single
response embeds the `strftime("%I:%M %p")` rendering of the clock, a string
of shape `HH:MM AM|PM` with zero-padded two-digit hour and minute, occurring
in the response as a substring. -/
theorem c8_time_format (env : Env) (hh : env.hour < 24) (hm : env.minute < 60) :
    processCommand env none (some "what time is it now") =
      (["The current time is " ++ formatTime12 env.hour env.minute], none) ∧
    matchesTimeFormat (formatTime12 env.hour env.minute) = true ∧
    pyIn (formatTime12 env.hour env.minute)
      ("The current time is " ++ formatTime12 env.hour env.minute) = true :=
  ⟨rfl, formatTime12_matches _ hh _ hm, pyIn_append_self _ _⟩

theorem c8_time_format_witness :
    (15 < 24 ∧ 30 < 60) ∧
    processCommand ⟨15, 30, 7⟩ none (some "what time is it now") =
      (["The current time is " ++ formatTime12 15 30], none) :=
  ⟨⟨by decide, by decide⟩, (c8_time_format ⟨15, 30, 7⟩ (by decide) (by decide)).1⟩

/-- C9: the Interpreter is deterministic in its inputs — two invocations on
the same transcript that read the same random draw and the same clock yield
identical utterances and identical signal. -/
theorem c9_deterministic (e₁ e₂ : Env) (cmd : Option String)
    (hseed : e₁.jokeIdx = e₂.jokeIdx) (hh : e₁.hour = e₂.hour)
    (hm : e₁.minute = e₂.minute) :
    processCommand e₁ none cmd = processCommand e₂ none cmd := by
  have he : e₁ = e₂ := by cases e₁; cases e₂; simp_all
  rw [he]

theorem c9_deterministic_witness :
    processCommand ⟨3, 30, 1⟩ none (some "please tell me a joke") =
      processCommand ⟨3, 30, 1⟩ none (some "please tell me a joke") :=
  c9_deterministic ⟨3, 30, 1⟩ ⟨3, 30, 1⟩ (some "please tell me a joke") rfl rfl rfl

/-- C10: one `process_command` call invokes `speak` at most once, for every
input — absent transcript, any present transcript, and the fault path
included. -/
theorem c10_speak_at_most_once (env : Env) (fault : Option String)
    (command : Option String) :
    (processCommand env fault command).1.length ≤ 1 := by
  cases command with
  | none => simp [processCommand]
  | some cmd =>
    cases fault with
    | some m => simp [processCommand]
    | none =>
      simp only [processCommand, processCommandBody, processCommandBodyWith]
      split_ifs <;> simp

end VoiceApp
